import Mathlib

/-!
# Verification of the NBA data-lake pipeline

Shallow embedding of the two Python modules of the repository:

* `nba_visualization.py` — submits an Athena query (`query_athena`) and polls
  for its completion (`fetch_query_results`);
* `setup_nba_data_lake.py` — fetches a feed (`retrieve_nba_data`), serializes
  it to line-delimited JSON (`format_as_jsonl`) and provisions the lake
  (`setup_main`).

The query engine is modelled as a function `Nat → QState` giving the status
observed by the k-th live status poll; the unbounded `while True` loop is
modelled with explicit fuel, `none` / `stillPolling` standing for a loop that
has not yet exited.  External calls (submission, status reads, sleeps, S3
writes, raised exceptions) are recorded in explicit event traces so that
claims about which calls happen, and how often, are statable.
-/

namespace NBADataLake

/-- Query lifecycle states of the engine (Athena query states plus the
spec's SUBMITTED). -/
inductive QState
  | submitted
  | running
  | succeeded
  | failed
  | cancelled
deriving DecidableEq, Repr

/-- The loop-exit test of `fetch_query_results`:
`if state in ["SUCCEEDED", "FAILED"]: break`. -/
def isLoopTerminal (s : QState) : Bool :=
  s = QState.succeeded || s = QState.failed

/-- Observable events of `nba_visualization.py`: engine calls, sleeps, the
raised exception and the returned artifact path. -/
inductive VizEvent
  | startQuery (queryString database outputLocation : String)
  | getStatus (qid : String)
  | sleep (seconds : Nat)
  | raiseError (msg : String)
  | returnArtifact (path : String)
deriving DecidableEq, Repr

def isStartQuery : VizEvent → Bool
  | .startQuery _ _ _ => true
  | _ => false

def isGetStatus : VizEvent → Bool
  | .getStatus _ => true
  | _ => false

def isSleep : VizEvent → Bool
  | .sleep _ => true
  | _ => false

def isRaiseError : VizEvent → Bool
  | .raiseError _ => true
  | _ => false

def isReturnArtifact : VizEvent → Bool
  | .returnArtifact _ => true
  | _ => false

/-- The `while True` polling loop of `fetch_query_results`: poll the live
status at index `k`; break when the state is SUCCEEDED or FAILED, otherwise
`time.sleep(2)` and poll again.  Returns the trace of engine calls and sleeps
together with `some (state, i)` when the loop broke after its `i`-th poll
(counted from a start index of 0), or `none` when the fuel ran out with the
loop still running. -/
def pollLoop (engine : Nat → QState) (qid : String) :
    Nat → Nat → List VizEvent × Option (QState × Nat)
  | 0, _ => ([], none)
  | fuel + 1, k =>
    let s := engine k
    if isLoopTerminal s then
      ([VizEvent.getStatus qid], some (s, k + 1))
    else
      let r := pollLoop engine qid fuel (k + 1)
      (VizEvent.getStatus qid :: VizEvent.sleep 2 :: r.1, r.2)

/-- Outcome of `fetch_query_results`: the returned S3 path, the raised
`Exception("Query failed!")`, or a loop that has not yet exited (fuel ran
out; in the source the loop simply keeps running). -/
inductive FetchOutcome
  | success (path : String)
  | queryFailed
  | stillPolling
deriving DecidableEq, Repr

/-- `fetch_query_results(query_execution_id, output_location)`: poll until
the state is SUCCEEDED or FAILED; on SUCCEEDED return
`f"{output_location}{query_execution_id}.csv"`, otherwise raise
`Exception("Query failed!")`. -/
def fetch_query_results (engine : Nat → QState) (qid out : String)
    (fuel : Nat) : List VizEvent × FetchOutcome :=
  let r := pollLoop engine qid fuel 0
  match r.2 with
  | none => (r.1, FetchOutcome.stillPolling)
  | some (s, _) =>
    if s = QState.succeeded then
      let p := out ++ qid ++ ".csv"
      (r.1 ++ [VizEvent.returnArtifact p], FetchOutcome.success p)
    else
      (r.1 ++ [VizEvent.raiseError "Query failed!"], FetchOutcome.queryFailed)

/-- `query_athena(database, query, output_location)`: one call to
`start_query_execution` with the given query string, database and output
location; returns the engine's `QueryExecutionId` (abstracted as the
parameter `submitId`).  The source performs no validation of the query. -/
def query_athena (submitId : String) (database query output_location : String) :
    List VizEvent × String :=
  ([VizEvent.startQuery query database output_location], submitId)

/-- `region` constant of `nba_visualization.py`. -/
def region : String := "us-west-2"

/-- `database_name` constant of `nba_visualization.py`. -/
def database_name : String := "glue_nba_data_lake"

/-- `query_output_location` constant of `nba_visualization.py`. -/
def query_output_location : String := "s3://players-nba/raw-data/"

/-- The triple-quoted `sql_query` literal of `main`. -/
def sql_query : String := "\n    SELECT Team, Points\n    FROM nba_players\n    "

/-- `main` of `nba_visualization.py` up to visualization: submit the query
once via `query_athena`, then poll via `fetch_query_results`. -/
def viz_main (engine : Nat → QState) (submitId : String) (fuel : Nat) :
    List VizEvent × FetchOutcome :=
  let sub := query_athena submitId database_name sql_query query_output_location
  let fetch := fetch_query_results engine sub.2 query_output_location fuel
  (sub.1 ++ fetch.1, fetch.2)

/-! ## `setup_nba_data_lake.py` -/

/-- JSON values, the records returned by `response.json()` and consumed by
`json.dumps`. -/
inductive JValue
  | jnull
  | jbool (b : Bool)
  | jint (n : Int)
  | jstr (s : String)
  | jarr (items : List JValue)
  | jobj (fields : List (String × JValue))
deriving Repr

/-- One hexadecimal digit, lower case, as emitted by `json.dumps` in
`\uXXXX` escapes. -/
def hexDigit (n : Nat) : Char :=
  match n with
  | 0 => '0' | 1 => '1' | 2 => '2' | 3 => '3' | 4 => '4'
  | 5 => '5' | 6 => '6' | 7 => '7' | 8 => '8' | 9 => '9'
  | 10 => 'a' | 11 => 'b' | 12 => 'c' | 13 => 'd' | 14 => 'e'
  | _ => 'f'

/-- Four-hex-digit rendering of a code unit, as in `\uXXXX`. -/
def hex4 (n : Nat) : String :=
  String.mk [hexDigit (n / 4096 % 16), hexDigit (n / 256 % 16),
             hexDigit (n / 16 % 16), hexDigit (n % 16)]

/-- Escaping of a single character by `json.dumps` (default
`ensure_ascii=True`): the two-character escapes for `"`,`\`, backspace,
form feed, newline, carriage return and tab; `\uXXXX` (with a surrogate
pair above U+FFFF) for the remaining control and non-ASCII characters;
every other character stands for itself. -/
def escapeChar (c : Char) : String :=
  if c = '"' then "\\\""
  else if c = '\\' then "\\\\"
  else if c = Char.ofNat 8 then "\\b"
  else if c = Char.ofNat 12 then "\\f"
  else if c = '\n' then "\\n"
  else if c = '\r' then "\\r"
  else if c = '\t' then "\\t"
  else if c.toNat < 32 ∨ 126 < c.toNat then
    if c.toNat < 65536 then "\\u" ++ hex4 c.toNat
    else
      let n := c.toNat - 65536
      "\\u" ++ hex4 (55296 + n / 1024) ++ "\\u" ++ hex4 (56320 + n % 1024)
  else String.singleton c

/-- `json.dumps` escaping applied to the characters of a string. -/
def escapeChars : List Char → String
  | [] => ""
  | c :: cs => escapeChar c ++ escapeChars cs

/-- Decimal digits of a natural number (most significant first), as in
Python's rendering of an `int`. -/
def natDigits (n : Nat) : List Char :=
  if _h : n < 10 then [hexDigit n]
  else natDigits (n / 10) ++ [hexDigit (n % 10)]
decreasing_by
  exact Nat.div_lt_self (by omega) (by omega)

/-- Python's rendering of an `int`: decimal digits, a leading minus sign
for negative values. -/
def intRepr (n : Int) : String :=
  if n < 0 then "-" ++ String.mk (natDigits n.natAbs)
  else String.mk (natDigits n.natAbs)

mutual

/-- `json.dumps(record)` with Python's default separators `", "` and
`": "`. -/
def json_dumps : JValue → String
  | JValue.jnull => "null"
  | JValue.jbool true => "true"
  | JValue.jbool false => "false"
  | JValue.jint n => intRepr n
  | JValue.jstr s => "\"" ++ escapeChars s.data ++ "\""
  | JValue.jarr items => "[" ++ dumpsItems items ++ "]"
  | JValue.jobj fields => "\x7b" ++ dumpsFields fields ++ "\x7d"

/-- Comma-separated rendering of the elements of a JSON array. -/
def dumpsItems : List JValue → String
  | [] => ""
  | [v] => json_dumps v
  | v :: vs => json_dumps v ++ ", " ++ dumpsItems vs

/-- Comma-separated rendering of the members of a JSON object. -/
def dumpsFields : List (String × JValue) → String
  | [] => ""
  | [(k, v)] => "\"" ++ escapeChars k.data ++ "\": " ++ json_dumps v
  | (k, v) :: fs =>
    "\"" ++ escapeChars k.data ++ "\": " ++ json_dumps v ++ ", " ++ dumpsFields fs

end

/-- `format_as_jsonl(data)`: `"\n".join(json.dumps(record) for record in
data)`. -/
def format_as_jsonl (data : List JValue) : String :=
  String.intercalate "\n" (data.map json_dumps)

/-- `retrieve_nba_data()`: perform the HTTP GET (abstracted as an
`Except`-valued response, `Except.error` covering transport and
authentication failures surfaced by `raise_for_status`); on success print a
message and return the parsed records, on any exception print the error and
return `[]`.  First component: the printed log lines; second: the returned
record list. -/
def retrieve_nba_data (response : Except String (List JValue)) :
    List String × List JValue :=
  match response with
  | Except.ok records => (["Successfully retrieved NBA data."], records)
  | Except.error err => (["Error fetching NBA data: " ++ err], [])

/-- `BUCKET_NAME` constant of `setup_nba_data_lake.py`. -/
def BUCKET_NAME : String := "sanalytics-data-lake"

/-- `GLUE_DATABASE` constant of `setup_nba_data_lake.py`. -/
def GLUE_DATABASE : String := "glue_nba_data_lake"

/-- `ATHENA_OUTPUT` constant of `setup_nba_data_lake.py`. -/
def ATHENA_OUTPUT : String := "s3://" ++ BUCKET_NAME ++ "/athena-results/"

/-- Observable events of `setup_nba_data_lake.py`'s main workflow. -/
inductive SetupEvent
  | createBucket (name : String)
  | sleep (seconds : Nat)
  | createDatabase (name : String)
  | fetchFeed
  | putObject (bucket key body : String)
  | createTable (database table : String)
  | startAthenaQuery (queryString : String)
deriving DecidableEq, Repr

def isPutObject : SetupEvent → Bool
  | .putObject _ _ _ => true
  | _ => false

/-- `main()` of `setup_nba_data_lake.py`: create the bucket, sleep 5s,
create the Glue database, fetch the feed; if the returned record list is
truthy (non-empty), format it as JSONL and upload it under
`raw-data/nba_player_data.jsonl`; then always create the Glue table and
run the Athena output-configuration query.  Every step catches its own
exceptions, so the workflow always runs to the end. -/
def setup_main (feed : Except String (List JValue)) : List SetupEvent :=
  let nba_data := (retrieve_nba_data feed).2
  [SetupEvent.createBucket BUCKET_NAME, SetupEvent.sleep 5,
   SetupEvent.createDatabase GLUE_DATABASE, SetupEvent.fetchFeed] ++
  (if nba_data.isEmpty then []
   else [SetupEvent.putObject BUCKET_NAME "raw-data/nba_player_data.jsonl"
           (format_as_jsonl nba_data)]) ++
  [SetupEvent.createTable GLUE_DATABASE "nba_players",
   SetupEvent.startAthenaQuery "CREATE DATABASE IF NOT EXISTS nba_analytics"]

/-- Split a character list at every newline, the boundary notion used to
state the one-JSON-object-per-line property of `format_as_jsonl`. -/
def splitLines : List Char → List (List Char)
  | [] => [[]]
  | c :: cs =>
    if c = '\n' then [] :: splitLines cs
    else
      match splitLines cs with
      | [] => [[c]]
      | l :: ls => (c :: l) :: ls

/-! ## Lemmas about the polling loop -/

/-- Every event recorded by the polling loop is a status poll or a 2-second
sleep: the loop never submits, returns or raises. -/
theorem pollLoop_events (engine : Nat → QState) (qid : String) :
    ∀ fuel start, ∀ e ∈ (pollLoop engine qid fuel start).1,
      e = VizEvent.getStatus qid ∨ e = VizEvent.sleep 2 := by
  intro fuel
  induction fuel with
  | zero => intro start e he; simp [pollLoop] at he
  | succ n ih =>
    intro start e he
    by_cases h : isLoopTerminal (engine start) = true
    · simp [pollLoop, h] at he
      exact Or.inl he
    · simp [pollLoop, h] at he
      rcases he with he | he | he
      · exact Or.inl he
      · exact Or.inr he
      · exact ih (start + 1) e he

/-- If the status at index `k` is loop-terminal and no earlier index at or
after `start` is, and the fuel reaches `k`, the loop exits with that status
after its `k + 1`-st poll. -/
theorem pollLoop_exit (engine : Nat → QState) (qid : String) :
    ∀ fuel start k, start ≤ k → k - start < fuel →
      isLoopTerminal (engine k) = true →
      (∀ j, start ≤ j → j < k → isLoopTerminal (engine j) = false) →
      (pollLoop engine qid fuel start).2 = some (engine k, k + 1) := by
  intro fuel
  induction fuel with
  | zero => intro start k _ hlt _ _; omega
  | succ n ih =>
    intro start k hsk hlt hk hmin
    rcases Nat.eq_or_lt_of_le hsk with heq | hlt'
    · subst heq
      simp [pollLoop, hk]
    · have hne : isLoopTerminal (engine start) = false :=
        hmin start (Nat.le_refl start) hlt'
      simp [pollLoop, hne]
      exact ih (start + 1) k hlt' (by omega) hk
        (fun j hj hj' => hmin j (by omega) hj')

/-- Under the same hypotheses, the loop issues exactly `k + 1 - start`
status polls and sleeps `k - start` times (one sleep between consecutive
polls, none after the terminal one). -/
theorem pollLoop_counts (engine : Nat → QState) (qid : String) :
    ∀ fuel start k, start ≤ k → k - start < fuel →
      isLoopTerminal (engine k) = true →
      (∀ j, start ≤ j → j < k → isLoopTerminal (engine j) = false) →
      (pollLoop engine qid fuel start).1.countP isGetStatus = k + 1 - start ∧
      (pollLoop engine qid fuel start).1.countP isSleep = k - start := by
  intro fuel
  induction fuel with
  | zero => intro start k _ hlt _ _; omega
  | succ n ih =>
    intro start k hsk hlt hk hmin
    rcases Nat.eq_or_lt_of_le hsk with heq | hlt'
    · subst heq
      simp [pollLoop, hk, List.countP_cons, isGetStatus, isSleep]
    · have hne : isLoopTerminal (engine start) = false :=
        hmin start (Nat.le_refl start) hlt'
      have := ih (start + 1) k hlt' (by omega) hk
        (fun j hj hj' => hmin j (by omega) hj')
      simp [pollLoop, hne, List.countP_cons, isGetStatus, isSleep]
      omega

/-- If no index reachable within the fuel is loop-terminal, the loop does
not exit. -/
theorem pollLoop_none (engine : Nat → QState) (qid : String) :
    ∀ fuel start,
      (∀ j, start ≤ j → j < start + fuel → isLoopTerminal (engine j) = false) →
      (pollLoop engine qid fuel start).2 = none := by
  intro fuel
  induction fuel with
  | zero => intro start _; simp [pollLoop]
  | succ n ih =>
    intro start h
    have hne : isLoopTerminal (engine start) = false :=
      h start (Nat.le_refl start) (by omega)
    simp [pollLoop, hne]
    exact ih (start + 1) (fun j hj hj' => h j (by omega) (by omega))

/-- Unfolding equation of `fetch_query_results` with the local `let`
flattened to projections. -/
theorem fetch_query_results_eq (engine : Nat → QState) (qid out : String)
    (fuel : Nat) :
    fetch_query_results engine qid out fuel =
      match (pollLoop engine qid fuel 0).2 with
      | none => ((pollLoop engine qid fuel 0).1, FetchOutcome.stillPolling)
      | some (s, _) =>
        if s = QState.succeeded then
          ((pollLoop engine qid fuel 0).1 ++
             [VizEvent.returnArtifact (out ++ qid ++ ".csv")],
           FetchOutcome.success (out ++ qid ++ ".csv"))
        else
          ((pollLoop engine qid fuel 0).1 ++
             [VizEvent.raiseError "Query failed!"],
           FetchOutcome.queryFailed) := rfl

/-- Every event of a `fetch_query_results` trace is a status poll, a
2-second sleep, the returned artifact or the raised exception. -/
theorem fetch_events_classified (engine : Nat → QState) (qid out : String)
    (fuel : Nat) :
    ∀ e ∈ (fetch_query_results engine qid out fuel).1,
      e = VizEvent.getStatus qid ∨ e = VizEvent.sleep 2 ∨
      e = VizEvent.returnArtifact (out ++ qid ++ ".csv") ∨
      e = VizEvent.raiseError "Query failed!" := by
  intro e he
  rw [fetch_query_results_eq] at he
  rcases hp : (pollLoop engine qid fuel 0).2 with _ | ⟨s, i⟩
  · simp only [hp] at he
    rcases pollLoop_events engine qid fuel 0 e he with h | h
    · exact Or.inl h
    · exact Or.inr (Or.inl h)
  · simp only [hp] at he
    by_cases hs : s = QState.succeeded
    · simp only [hs, if_pos rfl] at he
      rcases List.mem_append.mp he with h | h
      · rcases pollLoop_events engine qid fuel 0 e h with h' | h'
        · exact Or.inl h'
        · exact Or.inr (Or.inl h')
      · exact Or.inr (Or.inr (Or.inl (List.mem_singleton.mp h)))
    · simp only [if_neg hs] at he
      rcases List.mem_append.mp he with h | h
      · rcases pollLoop_events engine qid fuel 0 e h with h' | h'
        · exact Or.inl h'
        · exact Or.inr (Or.inl h')
      · exact Or.inr (Or.inr (Or.inr (List.mem_singleton.mp h)))

/-! ## Claims about the query executor and poller -/

/-- C1 (counterexample): CANCELLED is not in the code's loop-exit set.  An
engine that reports CANCELLED from the very first poll shows its first
status immediately, yet after 100 polls the loop of `fetch_query_results`
still has not exited. -/
theorem awaitCompletion_cancelled_keeps_polling_cex :
    isLoopTerminal QState.cancelled = false ∧
    (fetch_query_results (fun _ => QState.cancelled) "qid-1"
        "s3://players-nba/raw-data/" 100).2 = FetchOutcome.stillPolling := by
  exact ⟨rfl, rfl⟩

/-- C1 (amended): the loop of `fetch_query_results` polls the engine,
sleeping 2 seconds between consecutive checks, and exits exactly when the
first status in {SUCCEEDED, FAILED} is observed: if the `k`-th status is
the first one in that set and the fuel reaches it, the loop breaks with
that status after exactly `k + 1` polls and `k` sleeps. -/
theorem awaitCompletion_exits_at_first_loop_terminal
    (engine : Nat → QState) (qid : String) (k fuel : Nat)
    (hk : isLoopTerminal (engine k) = true)
    (hmin : ∀ j, j < k → isLoopTerminal (engine j) = false)
    (hf : k < fuel) :
    (pollLoop engine qid fuel 0).2 = some (engine k, k + 1) ∧
    (pollLoop engine qid fuel 0).1.countP isGetStatus = k + 1 ∧
    (pollLoop engine qid fuel 0).1.countP isSleep = k := by
  have h1 := pollLoop_exit engine qid fuel 0 k (Nat.zero_le k) (by omega) hk
    (fun j _ hj => hmin j hj)
  have h2 := pollLoop_counts engine qid fuel 0 k (Nat.zero_le k) (by omega) hk
    (fun j _ hj => hmin j hj)
  exact ⟨h1, by simpa using h2.1, by simpa using h2.2⟩

/-- Witness for C1's amended theorem at a concrete engine. -/
theorem awaitCompletion_exits_at_first_loop_terminal_witness :
    (pollLoop (fun j => if j < 2 then QState.running else QState.succeeded)
        "q" 5 0).2 = some (QState.succeeded, 3) ∧
    (pollLoop (fun j => if j < 2 then QState.running else QState.succeeded)
        "q" 5 0).1.countP isGetStatus = 3 ∧
    (pollLoop (fun j => if j < 2 then QState.running else QState.succeeded)
        "q" 5 0).1.countP isSleep = 2 :=
  awaitCompletion_exits_at_first_loop_terminal
    (fun j => if j < 2 then QState.running else QState.succeeded) "q" 2 5
    (by decide) (by decide) (by decide)

/-- C2 (counterexample): for a handle whose first terminal status is
CANCELLED the claim requires a `QueryExecutionError`; the code instead
keeps polling — after 50 polls nothing has been raised and no artifact
read. -/
theorem awaitCompletion_cancelled_no_error_cex :
    (fetch_query_results (fun j => if j < 2 then QState.running else QState.cancelled)
        "qid-2" "s3://players-nba/raw-data/" 50).2 = FetchOutcome.stillPolling ∧
    (fetch_query_results (fun j => if j < 2 then QState.running else QState.cancelled)
        "qid-2" "s3://players-nba/raw-data/" 50).1.countP isRaiseError = 0 := by
  exact ⟨rfl, rfl⟩

/-- C2 (amended): for a handle whose first loop-terminal observed status is
FAILED, `fetch_query_results` raises the constant-message exception
`"Query failed!"` — carrying neither the terminal status nor the handle —
and never computes or reads a result artifact in that run. -/
theorem awaitCompletion_failed_raises_plain_error
    (engine : Nat → QState) (qid out : String) (k fuel : Nat)
    (hk : engine k = QState.failed)
    (hmin : ∀ j, j < k → isLoopTerminal (engine j) = false)
    (hf : k < fuel) :
    (fetch_query_results engine qid out fuel).2 = FetchOutcome.queryFailed ∧
    VizEvent.raiseError "Query failed!" ∈ (fetch_query_results engine qid out fuel).1 ∧
    (fetch_query_results engine qid out fuel).1.countP isReturnArtifact = 0 := by
  have hterm : isLoopTerminal (engine k) = true := by
    simp [isLoopTerminal, hk]
  have h1 := pollLoop_exit engine qid fuel 0 k (Nat.zero_le k) (by omega) hterm
    (fun j _ hj => hmin j hj)
  have hns : ¬ engine k = QState.succeeded := by
    rw [hk]; intro h; exact QState.noConfusion h
  have hz : (pollLoop engine qid fuel 0).1.countP isReturnArtifact = 0 := by
    refine List.countP_eq_zero.mpr ?_
    intro e he
    rcases pollLoop_events engine qid fuel 0 e he with h | h <;>
      simp [h, isReturnArtifact]
  constructor
  · simp [fetch_query_results, h1, hns]
  constructor
  · simp [fetch_query_results, h1, hns]
  · simp [fetch_query_results, h1, hns, List.countP_append, hz, isReturnArtifact]

/-- Witness for C2's amended theorem at a concrete engine. -/
theorem awaitCompletion_failed_raises_plain_error_witness :
    (fetch_query_results (fun j => if j < 1 then QState.running else QState.failed)
        "qid-3" "s3://players-nba/raw-data/" 3).2 = FetchOutcome.queryFailed ∧
    VizEvent.raiseError "Query failed!" ∈
      (fetch_query_results (fun j => if j < 1 then QState.running else QState.failed)
        "qid-3" "s3://players-nba/raw-data/" 3).1 ∧
    (fetch_query_results (fun j => if j < 1 then QState.running else QState.failed)
        "qid-3" "s3://players-nba/raw-data/" 3).1.countP isReturnArtifact = 0 :=
  awaitCompletion_failed_raises_plain_error
    (fun j => if j < 1 then QState.running else QState.failed)
    "qid-3" "s3://players-nba/raw-data/" 1 3 (by decide) (by decide) (by decide)

/-- C3: against an engine that reports RUNNING for the first `N` polls and
SUCCEEDED on the next one, `fetch_query_results` issues exactly `N + 1`
status polls and returns the artifact path derived from the handle. -/
theorem awaitCompletion_polls_succ_count (N fuel : Nat) (qid out : String)
    (hf : N < fuel) :
    (fetch_query_results (fun j => if j < N then QState.running else QState.succeeded)
        qid out fuel).1.countP isGetStatus = N + 1 ∧
    (fetch_query_results (fun j => if j < N then QState.running else QState.succeeded)
        qid out fuel).2 = FetchOutcome.success (out ++ qid ++ ".csv") := by
  set engine := fun j => if j < N then QState.running else QState.succeeded with hengine
  have hkN : engine N = QState.succeeded := by simp [hengine]
  have hterm : isLoopTerminal (engine N) = true := by simp [isLoopTerminal, hkN]
  have hmin : ∀ j, j < N → isLoopTerminal (engine j) = false := by
    intro j hj; simp [hengine, hj, isLoopTerminal]
  have h1 := pollLoop_exit engine qid fuel 0 N (Nat.zero_le N) (by omega) hterm
    (fun j _ hj => hmin j hj)
  have h2 := pollLoop_counts engine qid fuel 0 N (Nat.zero_le N) (by omega) hterm
    (fun j _ hj => hmin j hj)
  rw [hkN] at h1
  constructor
  · simp [fetch_query_results, h1, List.countP_append, isGetStatus]
    simpa using h2.1
  · simp [fetch_query_results, h1]

/-- Witness for C3 at `N = 2`. -/
theorem awaitCompletion_polls_succ_count_witness :
    (fetch_query_results (fun j => if j < 2 then QState.running else QState.succeeded)
        "qw" "s3://players-nba/raw-data/" 4).1.countP isGetStatus = 3 ∧
    (fetch_query_results (fun j => if j < 2 then QState.running else QState.succeeded)
        "qw" "s3://players-nba/raw-data/" 4).2
      = FetchOutcome.success ("s3://players-nba/raw-data/" ++ "qw" ++ ".csv") :=
  awaitCompletion_polls_succ_count 2 4 "qw" "s3://players-nba/raw-data/" (by decide)

/-- C4: on a handle whose live status is already SUCCEEDED, the artifact
URI returned by `fetch_query_results` is the deterministic concatenation
`output_location ++ handle ++ ".csv"`, and two runs on the same handle and
output location return the same value. -/
theorem awaitCompletion_succeeded_uri_idempotent
    (engine : Nat → QState) (qid out : String)
    (hs : ∀ k, engine k = QState.succeeded) (f1 f2 : Nat)
    (h1 : 0 < f1) (h2 : 0 < f2) :
    (fetch_query_results engine qid out f1).2
      = FetchOutcome.success (out ++ qid ++ ".csv") ∧
    fetch_query_results engine qid out f1 = fetch_query_results engine qid out f2 := by
  have key : ∀ fuel, 0 < fuel →
      fetch_query_results engine qid out fuel
        = ([VizEvent.getStatus qid,
            VizEvent.returnArtifact (out ++ qid ++ ".csv")],
           FetchOutcome.success (out ++ qid ++ ".csv")) := by
    intro fuel hfuel
    obtain ⟨m, rfl⟩ := Nat.exists_eq_succ_of_ne_zero (Nat.pos_iff_ne_zero.mp hfuel)
    simp [fetch_query_results, pollLoop, hs 0, isLoopTerminal]
  rw [key f1 h1, key f2 h2]
  exact ⟨rfl, rfl⟩

/-- Witness for C4 on an engine that is SUCCEEDED from the start. -/
theorem awaitCompletion_succeeded_uri_idempotent_witness :
    (fetch_query_results (fun _ => QState.succeeded) "done-1"
        "s3://players-nba/raw-data/" 1).2
      = FetchOutcome.success ("s3://players-nba/raw-data/" ++ "done-1" ++ ".csv") ∧
    fetch_query_results (fun _ => QState.succeeded) "done-1"
        "s3://players-nba/raw-data/" 1
      = fetch_query_results (fun _ => QState.succeeded) "done-1"
        "s3://players-nba/raw-data/" 2 :=
  awaitCompletion_succeeded_uri_idempotent (fun _ => QState.succeeded)
    "done-1" "s3://players-nba/raw-data/" (fun _ => rfl) 1 2
    (by decide) (by decide)

/-- C5 (counterexample): the code supports no timeout and its poll interval
is fixed at 2 seconds.  Against an engine that takes 5 RUNNING polls to
reach SUCCEEDED, `fetch_query_results` never raises a timeout error: it
polls through and returns the artifact, sleeping 2 seconds five times. -/
theorem awaitCompletion_timeout_unsupported_cex :
    (fetch_query_results (fun j => if j < 5 then QState.running else QState.succeeded)
        "q1" "s3://players-nba/raw-data/" 50).2
      = FetchOutcome.success "s3://players-nba/raw-data/q1.csv" ∧
    (fetch_query_results (fun j => if j < 5 then QState.running else QState.succeeded)
        "q1" "s3://players-nba/raw-data/" 50).1.countP
          (fun e => e == VizEvent.sleep 2) = 5 := by
  exact ⟨rfl, rfl⟩

/-- C5 (amended): `fetch_query_results` has no timeout: whenever some poll
observes a loop-terminal status, the call runs to that status and ends in
the SUCCEEDED artifact or the FAILED exception — there is no timeout
outcome — and every sleep on the way is the fixed 2-second interval. -/
theorem awaitCompletion_no_timeout_polls_to_terminal
    (engine : Nat → QState) (qid out : String) (k fuel : Nat)
    (hk : isLoopTerminal (engine k) = true)
    (hmin : ∀ j, j < k → isLoopTerminal (engine j) = false)
    (hf : k < fuel) :
    ((fetch_query_results engine qid out fuel).2
        = FetchOutcome.success (out ++ qid ++ ".csv") ∨
     (fetch_query_results engine qid out fuel).2 = FetchOutcome.queryFailed) ∧
    ∀ e ∈ (fetch_query_results engine qid out fuel).1,
      isSleep e = true → e = VizEvent.sleep 2 := by
  have h1 := pollLoop_exit engine qid fuel 0 k (Nat.zero_le k) (by omega) hk
    (fun j _ hj => hmin j hj)
  constructor
  · by_cases hs : engine k = QState.succeeded
    · exact Or.inl (by simp [fetch_query_results, h1, hs])
    · exact Or.inr (by simp [fetch_query_results, h1, hs])
  · intro e he hsl
    rcases fetch_events_classified engine qid out fuel e he with h | h | h | h <;>
      first
        | (exact h)
        | (rw [h] at hsl; simp [isSleep] at hsl)

/-- Witness for C5's amended theorem. -/
theorem awaitCompletion_no_timeout_polls_to_terminal_witness :
    ((fetch_query_results (fun _ => QState.failed) "qf"
        "s3://players-nba/raw-data/" 1).2
      = FetchOutcome.success ("s3://players-nba/raw-data/" ++ "qf" ++ ".csv") ∨
     (fetch_query_results (fun _ => QState.failed) "qf"
        "s3://players-nba/raw-data/" 1).2 = FetchOutcome.queryFailed) ∧
    ∀ e ∈ (fetch_query_results (fun _ => QState.failed) "qf"
        "s3://players-nba/raw-data/" 1).1,
      isSleep e = true → e = VizEvent.sleep 2 :=
  awaitCompletion_no_timeout_polls_to_terminal (fun _ => QState.failed) "qf"
    "s3://players-nba/raw-data/" 0 1 (by decide) (by decide) (by decide)

/-- C6 (counterexample): `query_athena` performs no validation — called
with zero-length SQL it reaches the engine anyway, issuing exactly the
submission call with the empty query string. -/
theorem query_athena_empty_sql_submitted_cex :
    (query_athena "qid-7" "glue_nba_data_lake" "" "s3://players-nba/raw-data/").1
      = [VizEvent.startQuery "" "glue_nba_data_lake" "s3://players-nba/raw-data/"] := rfl

/-- C6 (amended): `query_athena` rejects nothing: every request, the
zero-length SQL text included, is submitted to the engine exactly once and
the engine's execution id is returned; there is no error path before
submission. -/
theorem query_athena_submits_without_validation
    (submitId database query output_location : String) :
    (query_athena submitId database query output_location).1.countP isStartQuery = 1 ∧
    VizEvent.startQuery query database output_location
      ∈ (query_athena submitId database query output_location).1 ∧
    (query_athena submitId database query output_location).2 = submitId := by
  refine ⟨rfl, ?_, rfl⟩
  simp [query_athena]

/-- C8: one pipeline run of `nba_visualization.main` issues exactly one
query submission, and the polling stage issues none at all — the loop only
repeats the status read, never the submission. -/
theorem submission_at_most_once_per_run
    (engine : Nat → QState) (submitId qid out : String) (fuel : Nat) :
    (viz_main engine submitId fuel).1.countP isStartQuery = 1 ∧
    (fetch_query_results engine qid out fuel).1.countP isStartQuery = 0 := by
  have hz : ∀ qid' out' : String,
      (fetch_query_results engine qid' out' fuel).1.countP isStartQuery = 0 := by
    intro qid' out'
    refine List.countP_eq_zero.mpr ?_
    intro e he
    rcases fetch_events_classified engine qid' out' fuel e he with h | h | h | h <;>
      simp [h, isStartQuery]
  constructor
  · simp only [viz_main, query_athena, List.countP_append]
    rw [hz]
    rfl
  · exact hz qid out

/-- C9 (counterexample): on an authentication failure of the feed the only
value handed back to the caller is the bare empty list — exactly what a
successful fetch of an empty feed returns — so no `FetchError` is signalled
to the caller. -/
theorem retrieve_failure_indistinguishable_cex :
    (retrieve_nba_data (Except.error "401 Client Error: Unauthorized")).2 = [] ∧
    (retrieve_nba_data (Except.error "401 Client Error: Unauthorized")).2
      = (retrieve_nba_data (Except.ok [])).2 := ⟨rfl, rfl⟩

/-- C9 (amended): on every transport or authentication failure
`retrieve_nba_data` swallows the exception and returns the explicit empty
list; the failure is only printed to the log, and the value returned to
the caller is indistinguishable from a successful fetch of an empty
feed — no error is signalled to the caller. -/
theorem retrieve_failure_empty_no_signal (err : String) :
    (retrieve_nba_data (Except.error err)).2 = [] ∧
    (retrieve_nba_data (Except.error err)).2 = (retrieve_nba_data (Except.ok [])).2 ∧
    (retrieve_nba_data (Except.error err)).1
      = ["Error fetching NBA data: " ++ err] := ⟨rfl, rfl, rfl⟩

/-- C10: when the fetch stage hands back an empty record list, `main` of
`setup_nba_data_lake.py` skips serialization and upload — no object is
written to storage — yet still creates the Glue table and runs the Athena
output-configuration query, completing the trace. -/
theorem setup_empty_feed_skips_upload (feed : Except String (List JValue))
    (h : (retrieve_nba_data feed).2 = []) :
    (setup_main feed).countP isPutObject = 0 ∧
    SetupEvent.createTable GLUE_DATABASE "nba_players" ∈ setup_main feed ∧
    SetupEvent.startAthenaQuery "CREATE DATABASE IF NOT EXISTS nba_analytics"
      ∈ setup_main feed := by
  refine ⟨?_, ?_, ?_⟩ <;>
    simp [setup_main, h, isPutObject, List.countP_append, List.countP_cons]

/-- Witness for C10 on a concrete failed feed call. -/
theorem setup_empty_feed_skips_upload_witness :
    (setup_main (Except.error "feed down")).countP isPutObject = 0 ∧
    SetupEvent.createTable GLUE_DATABASE "nba_players"
      ∈ setup_main (Except.error "feed down") ∧
    SetupEvent.startAthenaQuery "CREATE DATABASE IF NOT EXISTS nba_analytics"
      ∈ setup_main (Except.error "feed down") :=
  setup_empty_feed_skips_upload (Except.error "feed down") rfl

/-! ## Lemmas about the JSONL serializer -/

theorem no_newline_append {a b : String} (ha : '\n' ∉ a.data)
    (hb : '\n' ∉ b.data) : '\n' ∉ (a ++ b).data := by
  rw [String.data_append]
  intro h
  rcases List.mem_append.mp h with h | h
  · exact ha h
  · exact hb h

theorem hexDigit_ne_newline (n : Nat) : hexDigit n ≠ '\n' := by
  unfold hexDigit
  split <;> decide

theorem hex4_no_newline (n : Nat) : '\n' ∉ (hex4 n).data := by
  intro h
  simp only [hex4, List.mem_cons, List.not_mem_nil, or_false] at h
  rcases h with h | h | h | h <;> exact hexDigit_ne_newline _ h.symm

theorem natDigits_no_newline (n : Nat) : '\n' ∉ natDigits n := by
  induction n using Nat.strong_induction_on with
  | _ n ih =>
    unfold natDigits
    split_ifs with h
    · intro hm
      exact hexDigit_ne_newline n (List.mem_singleton.mp hm).symm
    · intro hm
      rcases List.mem_append.mp hm with hm | hm
      · exact ih (n / 10) (Nat.div_lt_self (by omega) (by omega)) hm
      · exact hexDigit_ne_newline (n % 10) (List.mem_singleton.mp hm).symm

theorem intRepr_no_newline (n : Int) : '\n' ∉ (intRepr n).data := by
  unfold intRepr
  split_ifs with h
  · exact no_newline_append (by decide) (natDigits_no_newline n.natAbs)
  · exact natDigits_no_newline n.natAbs

theorem escapeChar_no_newline (c : Char) : '\n' ∉ (escapeChar c).data := by
  unfold escapeChar
  split_ifs with h1 h2 h3 h4 h5 h6 h7 h8 h9
  · decide
  · decide
  · decide
  · decide
  · decide
  · decide
  · decide
  · exact no_newline_append (by decide) (hex4_no_newline c.toNat)
  · exact no_newline_append
      (no_newline_append (no_newline_append (by decide)
        (hex4_no_newline (55296 + (c.toNat - 65536) / 1024))) (by decide))
      (hex4_no_newline (56320 + (c.toNat - 65536) % 1024))
  · intro hm
    exact h5 (List.mem_singleton.mp hm).symm

theorem escapeChars_no_newline (l : List Char) : '\n' ∉ (escapeChars l).data := by
  induction l with
  | nil => intro h; simp [escapeChars] at h
  | cons c cs ih =>
    exact no_newline_append (escapeChar_no_newline c) ih

mutual

theorem json_dumps_no_newline : ∀ v : JValue, '\n' ∉ (json_dumps v).data
  | JValue.jnull => by intro h; simp [json_dumps] at h
  | JValue.jbool true => by intro h; simp [json_dumps] at h
  | JValue.jbool false => by intro h; simp [json_dumps] at h
  | JValue.jint n => by
      simp only [json_dumps]
      exact intRepr_no_newline n
  | JValue.jstr s => by
      simp only [json_dumps]
      exact no_newline_append
        (no_newline_append (by decide) (escapeChars_no_newline s.data)) (by decide)
  | JValue.jarr items => by
      simp only [json_dumps]
      exact no_newline_append
        (no_newline_append (by decide) (dumpsItems_no_newline items)) (by decide)
  | JValue.jobj fields => by
      simp only [json_dumps]
      exact no_newline_append
        (no_newline_append (by decide) (dumpsFields_no_newline fields)) (by decide)

theorem dumpsItems_no_newline : ∀ vs : List JValue, '\n' ∉ (dumpsItems vs).data
  | [] => by intro h; simp [dumpsItems] at h
  | [v] => by
      simp only [dumpsItems]
      exact json_dumps_no_newline v
  | v :: v' :: vs => by
      simp only [dumpsItems]
      exact no_newline_append
        (no_newline_append (json_dumps_no_newline v) (by decide))
        (dumpsItems_no_newline (v' :: vs))

theorem dumpsFields_no_newline :
    ∀ fs : List (String × JValue), '\n' ∉ (dumpsFields fs).data
  | [] => by intro h; simp [dumpsFields] at h
  | [(k, v)] => by
      simp only [dumpsFields]
      exact no_newline_append
        (no_newline_append
          (no_newline_append (by decide) (escapeChars_no_newline k.data))
          (by decide))
        (json_dumps_no_newline v)
  | (k, v) :: f' :: fs => by
      simp only [dumpsFields]
      exact no_newline_append
        (no_newline_append
          (no_newline_append
            (no_newline_append
              (no_newline_append (by decide) (escapeChars_no_newline k.data))
              (by decide))
            (json_dumps_no_newline v))
          (by decide))
        (dumpsFields_no_newline (f' :: fs))

end

/-- Accumulator lemma for `String.intercalate.go`. -/
theorem intercalate_go_append (s acc1 : String) :
    ∀ (l : List String) (acc2 : String),
      String.intercalate.go (acc1 ++ acc2) s l
        = acc1 ++ String.intercalate.go acc2 s l := by
  intro l
  induction l with
  | nil => intro acc2; rfl
  | cons a as ih =>
    intro acc2
    show String.intercalate.go (acc1 ++ acc2 ++ s ++ a) s as
      = acc1 ++ String.intercalate.go (acc2 ++ s ++ a) s as
    rw [String.append_assoc, String.append_assoc,
      ← String.append_assoc acc2 s a]
    exact ih (acc2 ++ s ++ a)

/-- `String.intercalate` peels off its first element (two-or-more case). -/
theorem intercalate_cons_cons (s a b : String) (l : List String) :
    String.intercalate s (a :: b :: l)
      = a ++ s ++ String.intercalate s (b :: l) := by
  show String.intercalate.go (a ++ s ++ b) s l
    = a ++ s ++ String.intercalate.go b s l
  exact intercalate_go_append s (a ++ s) l b

/-- A newline-free character list is a single line. -/
theorem splitLines_no_newline (l : List Char) (h : '\n' ∉ l) :
    splitLines l = [l] := by
  induction l with
  | nil => rfl
  | cons c cs ih =>
    have hc : ¬ c = '\n' := fun hc => h (by rw [hc]; exact List.mem_cons_self _ _)
    have hcs : '\n' ∉ cs := fun hm => h (List.mem_cons_of_mem c hm)
    simp [splitLines, hc, ih hcs]

/-- Splitting a newline-free prefix followed by a newline peels one line. -/
theorem splitLines_append_newline (l r : List Char) (h : '\n' ∉ l) :
    splitLines (l ++ '\n' :: r) = l :: splitLines r := by
  induction l with
  | nil => simp [splitLines]
  | cons c cs ih =>
    have hc : ¬ c = '\n' := fun hc => h (by rw [hc]; exact List.mem_cons_self _ _)
    have hcs : '\n' ∉ cs := fun hm => h (List.mem_cons_of_mem c hm)
    simp [splitLines, hc, ih hcs]

/-- C7: `format_as_jsonl` of the empty sequence is the empty blob; of
`[r1, r2]` it is the two serialized records in input order joined by a
single newline with no trailing separator; no serialized record contains a
newline, and in general the lines of the output are exactly the serialized
records in input order — one JSON object per line. -/
theorem serialize_jsonl_lines :
    format_as_jsonl [] = "" ∧
    (∀ r1 r2 : JValue, format_as_jsonl [r1, r2]
        = json_dumps r1 ++ "\n" ++ json_dumps r2) ∧
    (∀ r : JValue, '\n' ∉ (json_dumps r).data) ∧
    (∀ data : List JValue, data ≠ [] →
      splitLines (format_as_jsonl data).data
        = data.map (fun r => (json_dumps r).data)) := by
  refine ⟨rfl, ?_, json_dumps_no_newline, ?_⟩
  · intro r1 r2
    exact intercalate_cons_cons "\n" (json_dumps r1) (json_dumps r2) []
  · intro data hne
    obtain ⟨r, rest, rfl⟩ := List.exists_cons_of_ne_nil hne
    clear hne
    induction rest generalizing r with
    | nil =>
      show splitLines (json_dumps r).data = [(json_dumps r).data]
      exact splitLines_no_newline _ (json_dumps_no_newline r)
    | cons r2 rest2 ih =>
      have hstep : format_as_jsonl (r :: r2 :: rest2)
          = json_dumps r ++ "\n" ++ format_as_jsonl (r2 :: rest2) := by
        simp only [format_as_jsonl, List.map_cons]
        exact intercalate_cons_cons "\n" (json_dumps r) (json_dumps r2)
          (rest2.map json_dumps)
      have hdata : (json_dumps r ++ "\n" ++ format_as_jsonl (r2 :: rest2)).data
          = (json_dumps r).data ++ '\n' :: (format_as_jsonl (r2 :: rest2)).data := by
        rw [String.data_append, String.data_append]
        simp
      rw [hstep, hdata,
        splitLines_append_newline _ _ (json_dumps_no_newline r), ih r2]
      simp

/-- Witness for C7's general one-object-per-line clause on a concrete
record list. -/
theorem serialize_jsonl_lines_witness :
    splitLines (format_as_jsonl [JValue.jnull]).data
      = [(json_dumps JValue.jnull).data] :=
  serialize_jsonl_lines.2.2.2 [JValue.jnull] (List.cons_ne_nil _ _)

end NBADataLake
